import Mathlib

/-
Verification of the load-generation engine and its two behavior profiles
(load-testing/locustfile.py and loadtesting/locustfile.py).

Per-task response classification, task weights, tag sets, wait-time ranges,
timeouts and session-transcript handling are embedded directly from the
two source scripts.  Engine components that the scripts only invoke
(TaskSelector, StatsAggregator, Orchestrator, WaitTimeProvider,
RequestExecutor) are modelled from the specification and say so in their
doc comments.
-/

namespace LoadTest

/-- Verdict of classifying one HTTP outcome, as produced by the
response-handling branches of the profile tasks: a call to
`response.success()` or `response.failure(reason)`. -/
inductive Verdict where
  | success
  | failure (reason : String)
deriving DecidableEq, Repr

/-- Boolean test that `pat` is a prefix of the second list. -/
def charsPrefixOf : List Char → List Char → Bool
  | [], _ => true
  | _ :: _, [] => false
  | a :: as, b :: bs => a == b && charsPrefixOf as bs

/-- Boolean test that `pat` occurs contiguously inside `hay`. -/
def charsContain (pat hay : List Char) : Bool :=
  match hay with
  | [] => charsPrefixOf pat []
  | _ :: rest => charsPrefixOf pat hay || charsContain pat rest

/-- String containment: `strContains hay pat` holds when `pat` occurs as a
contiguous substring of `hay`. -/
def strContains (hay pat : String) : Bool :=
  charsContain pat.data hay.data

/-- Classifier of `ChatUser.chat_simple` (load-testing/locustfile.py lines
67-72): 200 → success; 429 → failure "Rate limited"; otherwise failure
with the status code in the reason. -/
def classify_chat_simple (statusCode : Nat) : Verdict :=
  if statusCode = 200 then .success
  else if statusCode = 429 then .failure "Rate limited"
  else .failure ("Got status code " ++ toString statusCode)

/-- Classifier of `ChatUser.chat_conversation` (load-testing/locustfile.py
lines 104-109), identical branch structure to `chat_simple`. -/
def classify_chat_conversation (statusCode : Nat) : Verdict :=
  if statusCode = 200 then .success
  else if statusCode = 429 then .failure "Rate limited"
  else .failure ("Got status code " ++ toString statusCode)

/-- Classifier of `ChatUser.test_tool_endpoint` (load-testing/locustfile.py
lines 127-132). -/
def classify_test_tool_endpoint (statusCode : Nat) : Verdict :=
  if statusCode = 200 then .success
  else if statusCode = 429 then .failure "Rate limited"
  else .failure ("Got status code " ++ toString statusCode)

/-- Classifier of `HeavyUser.chat_heavy` (load-testing/locustfile.py lines
181-186). -/
def classify_chat_heavy (statusCode : Nat) : Verdict :=
  if statusCode = 200 then .success
  else if statusCode = 429 then .failure "Rate limited"
  else .failure ("Got status code " ++ toString statusCode)

/-- Classifier of `BurstUser.rapid_requests` (load-testing/locustfile.py
lines 212-218): the burst-traffic task marks 429 as an expected outcome
and calls `response.success()` on it. -/
def classify_rapid_requests (statusCode : Nat) : Verdict :=
  if statusCode = 200 then .success
  else if statusCode = 429 then .success
  else .failure ("Got status code " ++ toString statusCode)

/-- Classifier of `ChatGPTPhilippinesUser.chat_endpoint`
(loadtesting/locustfile.py lines 55-60). -/
def classify_chat_endpoint (statusCode : Nat) : Verdict :=
  if statusCode = 200 then .success
  else if statusCode = 429 then .failure "Rate limited"
  else .failure ("Failed with status " ++ toString statusCode)

/-- Descriptor of one weighted task of a behavior profile: `@task(w)` plus
its `@tag(...)` set from the source scripts. -/
structure TaskDesc where
  name : String
  weight : Nat
  tags : List String
deriving DecidableEq, Repr

/-- The `ChatUser` task set of load-testing/locustfile.py: weights
10, 5, 3, 1, 1 and no tags. -/
def chatUserTasks : List TaskDesc :=
  [⟨"chat_simple", 10, []⟩,
   ⟨"chat_conversation", 5, []⟩,
   ⟨"test_tool_endpoint", 3, []⟩,
   ⟨"check_health", 1, []⟩,
   ⟨"view_homepage", 1, []⟩]

/-- The `ChatGPTPhilippinesUser` task set of loadtesting/locustfile.py,
with the `@tag` annotations of each task. -/
def chatGPTPhilippinesTasks : List TaskDesc :=
  [⟨"chat_endpoint", 5, ["chat"]⟩,
   ⟨"translate_endpoint", 2, ["translate"]⟩,
   ⟨"grammar_check_endpoint", 2, ["grammar"]⟩,
   ⟨"summarize_endpoint", 2, ["summarize"]⟩,
   ⟨"paraphrase_endpoint", 1, ["paraphrase"]⟩,
   ⟨"health_check", 1, ["monitoring"]⟩,
   ⟨"metrics_check", 1, ["monitoring"]⟩]

/-- Errors of the task selector. -/
inductive SelectError where
  | NoEligibleTask
  | DrawOutOfRange
deriving DecidableEq, Repr

/-- Modelled from the spec: TaskSelector eligibility — a task is a
candidate when its tag set is empty or intersects the active tag filter;
with no filter configured every task is a candidate. -/
def eligible (filter : Option (List String)) (t : TaskDesc) : Bool :=
  match filter with
  | none => true
  | some f => t.tags.isEmpty || t.tags.any (fun tag => f.contains tag)

/-- Total weight of a task set. -/
def totalWeight (ts : List TaskDesc) : Nat :=
  (ts.map TaskDesc.weight).sum

/-- Modelled from the spec: cumulative-weight search over a single uniform
draw in `[0, totalWeight)` — walk the list subtracting weights until the
draw falls inside a task's weight interval. -/
def cumSelect : List TaskDesc → Nat → Option TaskDesc
  | [], _ => none
  | t :: ts, d => if d < t.weight then some t else cumSelect ts (d - t.weight)

/-- Modelled from the spec: `TaskSelector.select` — the selection routine of
the engine, absent from the two profile scripts.  Candidate set as in
`eligible`; an empty candidate set fails with `NoEligibleTask`; otherwise
the cumulative-weight search resolves the draw. -/
def select (tasks : List TaskDesc) (filter : Option (List String))
    (draw : Nat) : Except SelectError TaskDesc :=
  if (tasks.filter (eligible filter)).isEmpty then .error .NoEligibleTask
  else
    match cumSelect (tasks.filter (eligible filter)) draw with
    | some t => .ok t
    | none => .error .DrawOutOfRange

theorem cumSelect_mem {l : List TaskDesc} {d : Nat} {t : TaskDesc}
    (h : cumSelect l d = some t) : t ∈ l := by
  induction l generalizing d with
  | nil => simp [cumSelect] at h
  | cons a as ih =>
    simp only [cumSelect] at h
    split at h
    · exact (Option.some.inj h) ▸ List.mem_cons_self _ _
    · exact List.mem_cons_of_mem a (ih h)

theorem cumSelect_isSome {l : List TaskDesc} {d : Nat}
    (h : d < totalWeight l) : ∃ t, cumSelect l d = some t := by
  induction l generalizing d with
  | nil => simp [totalWeight] at h
  | cons a as ih =>
    simp only [cumSelect]
    by_cases hd : d < a.weight
    · exact ⟨a, if_pos hd⟩
    · rw [if_neg hd]
      apply ih
      simp only [totalWeight, List.map_cons, List.sum_cons] at h ⊢
      omega

/-- One statistics bucket: running request count and failure count for one
request category. -/
structure StatEntry where
  count : Nat
  failCount : Nat
deriving DecidableEq, Repr

/-- Modelled from the spec: the StatsAggregator state — a mapping from
category name to its `StatEntry`, kept as an association list. -/
abbrev Aggregator := List (String × StatEntry)

/-- Modelled from the spec: the aggregator state after `reset()` — every
category at zero. -/
def emptyAggregator : Aggregator := []

/-- Whether a verdict counts toward the failure count. -/
def isFailureVerdict : Verdict → Bool
  | .success => false
  | .failure _ => true

/-- Fold one outcome into a stat entry. -/
def bumpEntry (e : StatEntry) (isFail : Bool) : StatEntry :=
  { count := e.count + 1,
    failCount := e.failCount + (if isFail then 1 else 0) }

/-- Modelled from the spec: `StatsAggregator.record(category, verdict)` —
append the outcome to the category's entry, creating the entry on first
use.  Concurrent callers are serialized by the aggregation discipline, so
the state evolution is the sequential fold of the interleaved calls. -/
def record (agg : Aggregator) (category : String) (v : Verdict) : Aggregator :=
  match agg with
  | [] => [(category, bumpEntry ⟨0, 0⟩ (isFailureVerdict v))]
  | (c, e) :: rest =>
    if c = category then (c, bumpEntry e (isFailureVerdict v)) :: rest
    else (c, e) :: record rest category v

/-- Sum of `StatEntry` counts across all categories. -/
def totalCount (agg : Aggregator) : Nat :=
  (agg.map (fun p => p.2.count)).sum

/-- One recorded request outcome: its category and its verdict. -/
abbrev OutcomeRec := String × Verdict

/-- Replay a sequence of outcomes through the aggregator from reset. -/
def replay (l : List OutcomeRec) : Aggregator :=
  l.foldl (fun a p => record a p.1 p.2) emptyAggregator

theorem totalCount_record (agg : Aggregator) (c : String) (v : Verdict) :
    totalCount (record agg c v) = totalCount agg + 1 := by
  induction agg with
  | nil => simp [record, totalCount, bumpEntry]
  | cons p rest ih =>
    obtain ⟨c0, e0⟩ := p
    simp only [record]
    split
    · simp [totalCount, bumpEntry]; omega
    · simp only [totalCount, List.map_cons, List.sum_cons] at ih ⊢
      omega

theorem totalCount_foldl (l : List OutcomeRec) (agg : Aggregator) :
    totalCount (l.foldl (fun a p => record a p.1 p.2) agg) =
      totalCount agg + l.length := by
  induction l generalizing agg with
  | nil => simp
  | cons p rest ih =>
    simp only [List.foldl_cons, List.length_cons, ih, totalCount_record]
    omega

/-- Take the next pending operation of writer `i`: its head outcome and the
writer state with that outcome consumed. -/
def takeFrom (ws : List (List OutcomeRec)) (i : Nat) :
    Option (OutcomeRec × List (List OutcomeRec)) :=
  match ws.get? i with
  | some (a :: rest) => some (a, ws.set i rest)
  | _ => none

/-- Modelled from the spec: one interleaving of K concurrent writers.  A
schedule is the order in which the serialized aggregation point admits the
writers' record calls; `mergeSched` yields the resulting global sequence
of outcomes, or `none` when the schedule does not consume every writer's
records exactly once. -/
def mergeSched : List Nat → List (List OutcomeRec) → Option (List OutcomeRec)
  | [], ws => if ws.all List.isEmpty then some [] else none
  | i :: s, ws =>
    match takeFrom ws i with
    | some (a, ws2) => (mergeSched s ws2).map (fun out => a :: out)
    | none => none

theorem sum_lengths_set {ws : List (List OutcomeRec)} {i : Nat}
    {b : OutcomeRec} {bs : List OutcomeRec}
    (h : ws.get? i = some (b :: bs)) :
    ((ws.set i bs).map List.length).sum + 1 = (ws.map List.length).sum := by
  induction ws generalizing i with
  | nil => simp at h
  | cons w rest ih =>
    cases i with
    | zero =>
      rw [List.get?_cons_zero, Option.some.injEq] at h
      subst h
      simp only [List.set, List.map_cons, List.sum_cons, List.length_cons]
      omega
    | succ j =>
      rw [List.get?_cons_succ] at h
      have := ih h
      simp only [List.set, List.map_cons, List.sum_cons]
      omega

theorem takeFrom_eq {ws ws2 : List (List OutcomeRec)} {i : Nat}
    {a : OutcomeRec} (h : takeFrom ws i = some (a, ws2)) :
    ∃ bs, ws.get? i = some (a :: bs) ∧ ws2 = ws.set i bs := by
  unfold takeFrom at h
  match hg : ws.get? i with
  | none => rw [hg] at h; simp at h
  | some [] => rw [hg] at h; simp at h
  | some (b :: bs) =>
    rw [hg] at h
    simp only [Option.some.injEq, Prod.mk.injEq] at h
    obtain ⟨h1, h2⟩ := h
    subst h1
    exact ⟨bs, rfl, h2.symm⟩

theorem sum_lengths_takeFrom {ws ws2 : List (List OutcomeRec)}
    {i : Nat} {a : OutcomeRec} (h : takeFrom ws i = some (a, ws2)) :
    (ws2.map List.length).sum + 1 = (ws.map List.length).sum := by
  obtain ⟨bs, hg, hset⟩ := takeFrom_eq h
  subst hset
  exact sum_lengths_set hg

theorem mergeSched_length {sched : List Nat} {ws : List (List OutcomeRec)}
    {out : List OutcomeRec} (h : mergeSched sched ws = some out) :
    out.length = (ws.map List.length).sum := by
  induction sched generalizing ws out with
  | nil =>
    simp only [mergeSched] at h
    split at h
    · rename_i hall
      cases h
      simp only [List.length_nil]
      symm
      rw [List.sum_eq_zero]
      intro x hx
      simp only [List.mem_map] at hx
      obtain ⟨w, hw, hlen⟩ := hx
      have := List.all_eq_true.mp hall w hw
      simp only [List.isEmpty_iff] at this
      subst this
      simp [hlen.symm]
    · exact absurd h (by simp)
  | cons i s ih =>
    simp only [mergeSched] at h
    match ht : takeFrom ws i with
    | none => rw [ht] at h; simp at h
    | some (a, ws2) =>
      rw [ht] at h
      simp only [Option.map_eq_some'] at h
      obtain ⟨out2, hm, hout⟩ := h
      subst hout
      have h1 := ih hm
      have h2 := sum_lengths_takeFrom ht
      simp only [List.length_cons]
      omega

theorem sum_lengths_const {N : Nat} {ws : List (List OutcomeRec)}
    (h : ∀ w ∈ ws, w.length = N) :
    (ws.map List.length).sum = ws.length * N := by
  induction ws with
  | nil => simp
  | cons w rest ih =>
    simp only [List.map_cons, List.sum_cons, List.length_cons]
    rw [h w (List.mem_cons_self _ _), ih (fun x hx => h x (List.mem_cons_of_mem _ hx))]
    ring

/-- Lifecycle phase of a run. -/
inductive Phase where
  | idle
  | ramping
  | running
  | stopping
  | stopped
deriving DecidableEq, Repr

/-- Run-level state owned by the Orchestrator: the lifecycle phase and the
single shared aggregator instance. -/
structure OrchestratorState where
  phase : Phase
  agg : Aggregator
deriving DecidableEq, Repr

/-- A behavior profile as consumed by the Orchestrator: weighted task set
plus the wait-time range. -/
structure Profile where
  tasks : List TaskDesc
  waitMin : ℚ
  waitMax : ℚ
deriving DecidableEq, Repr

/-- Configuration errors rejected before any virtual user starts. -/
inductive ConfigError where
  | invalidProfile
deriving DecidableEq, Repr

/-- Modelled from the spec: profile validation at `Orchestrator.start` —
non-empty task set and positive total weight. -/
def validProfile (p : Profile) : Bool :=
  !p.tasks.isEmpty && decide (0 < totalWeight p.tasks)

/-- Modelled from the spec: `Orchestrator.start` — validates the profiles,
resets the StatsAggregator (discarding whatever the previous run left
behind), and moves the run into its active phase. -/
def Orchestrator.start (profiles : List Profile)
    (_prev : OrchestratorState) : Except ConfigError OrchestratorState :=
  if !profiles.isEmpty && profiles.all validProfile then
    .ok { phase := .running, agg := emptyAggregator }
  else .error .invalidProfile

/-- Modelled from the spec: `Orchestrator.stop` — transitions to Stopped
and emits the final snapshot of the aggregator. -/
def Orchestrator.stop (st : OrchestratorState) :
    OrchestratorState × Aggregator :=
  ({ st with phase := .stopped }, st.agg)

/-- Modelled from the spec: the WaitTimeProvider contract behind locust's
`between(min, max)` — map one uniform unit draw `u ∈ [0,1]` affinely onto
the configured range. -/
def between (mn mx u : ℚ) : ℚ := mn + u * (mx - mn)

/-- Wait-time range of `ChatUser`: `between(1, 5)`
(load-testing/locustfile.py line 39). -/
def ChatUser_wait_range : ℚ × ℚ := (1, 5)

/-- Wait-time range of `HeavyUser`: `between(2, 8)`
(load-testing/locustfile.py line 156). -/
def HeavyUser_wait_range : ℚ × ℚ := (2, 8)

/-- Wait-time range of `BurstUser`: `between(0.1, 1)`
(load-testing/locustfile.py line 192). -/
def BurstUser_wait_range : ℚ × ℚ := (1/10, 1)

/-- The request issued by one task: method, path, and the per-call timeout
when the task declares one. -/
structure RequestSpec where
  method : String
  path : String
  timeout : Option Nat
deriving DecidableEq, Repr

/-- Request of `HeavyUser.chat_heavy` (load-testing/locustfile.py lines
174-179): POST /api/chat with an explicit `timeout=60`. -/
def chat_heavy_request : RequestSpec :=
  ⟨"POST", "/api/chat", some 60⟩

/-- Request of `ChatUser.chat_simple` (lines 61-66): no per-call timeout. -/
def chat_simple_request : RequestSpec :=
  ⟨"POST", "/api/chat", none⟩

/-- Request of `ChatUser.chat_conversation` (lines 98-103). -/
def chat_conversation_request : RequestSpec :=
  ⟨"POST", "/api/chat", none⟩

/-- Request of `ChatUser.test_tool_endpoint` (lines 121-126); the path is
drawn from `TOOL_ENDPOINTS`. -/
def test_tool_endpoint_request (endpoint : String) : RequestSpec :=
  ⟨"POST", endpoint, none⟩

/-- Request of `ChatUser.check_health` (lines 137-140). -/
def check_health_request : RequestSpec :=
  ⟨"GET", "/api/health", none⟩

/-- Request of `ChatUser.view_homepage` (line 150). -/
def view_homepage_request : RequestSpec :=
  ⟨"GET", "/", none⟩

/-- Request of `BurstUser.rapid_requests` (lines 206-210). -/
def rapid_requests_request : RequestSpec :=
  ⟨"POST", "/api/chat", none⟩

/-- Modelled from the spec: the RequestExecutor issues a request with the
task's declared per-call timeout when present, the engine default
otherwise. -/
def effectiveTimeout (spec : RequestSpec) (engineDefault : Nat) : Nat :=
  spec.timeout.getD engineDefault

/-- One chat message of a session transcript. -/
structure Message where
  role : String
  content : String
deriving DecidableEq, Repr

/-- The transcript `self.messages` right after `ChatUser.on_start`
(load-testing/locustfile.py lines 41-44): the empty list. -/
def on_start_messages : List Message := []

/-- The fixed follow-up message appended to every conversation payload
(load-testing/locustfile.py line 90-91). -/
def follow_up_message : Message :=
  ⟨"user", "Can you explain that in more detail?"⟩

/-- Transcript mutation of `ChatUser.chat_conversation` (lines 77-87): when
fewer than 2 messages are stored, append one user prompt and one canned
assistant reply; otherwise leave the transcript unchanged. -/
def chat_conversation_update (prompt : String) (msgs : List Message) :
    List Message :=
  if msgs.length < 2 then
    msgs ++ [⟨"user", prompt⟩, ⟨"assistant", "This is a test response."⟩]
  else msgs

/-- Payload built by `ChatUser.chat_conversation` (lines 89-96): the
(possibly warmed-up) transcript plus the follow-up user message. -/
def chat_conversation_payload (prompt : String) (msgs : List Message) :
    List Message :=
  chat_conversation_update prompt msgs ++ [follow_up_message]

/-! Claim theorems. -/

/-- C1 counterexample: under the default policy (e.g. `ChatUser.chat_simple`)
a 429 outcome is classified Failure with reason exactly "Rate limited"
(capital R); the lowercase string "rate limited" the claim requires does
not occur in that reason. -/
theorem C1_counterexample :
    classify_chat_simple 429 = Verdict.failure "Rate limited" ∧
    strContains "Rate limited" "rate limited" = false :=
  ⟨rfl, by decide⟩

/-- C1 (amended): a 429 outcome is classified Success by the burst-traffic
task, whose policy tolerates 429, and Failure with reason containing
"Rate limited" (capitalized as in the code) by the simple, conversation
and tool chat tasks that use the default policy. -/
theorem C1_classify_429_per_policy :
    classify_rapid_requests 429 = Verdict.success ∧
    classify_chat_simple 429 = Verdict.failure "Rate limited" ∧
    classify_chat_conversation 429 = Verdict.failure "Rate limited" ∧
    classify_test_tool_endpoint 429 = Verdict.failure "Rate limited" ∧
    classify_chat_endpoint 429 = Verdict.failure "Rate limited" ∧
    strContains "Rate limited" "Rate limited" = true :=
  ⟨rfl, rfl, rfl, rfl, rfl, by decide⟩

/-- C2 counterexample: status 201 lies in [200, 299] but the default policy
classifies it as Failure ("Got status code 201"), not Success. -/
theorem C2_counterexample :
    (200 ≤ 201 ∧ 201 ≤ 299) ∧
    classify_chat_simple 201 = Verdict.failure "Got status code 201" ∧
    classify_chat_simple 201 ≠ Verdict.success :=
  ⟨⟨by decide, by decide⟩, by decide, by decide⟩

/-- C2 (amended): under the default classification policy a request outcome
with status code in [200, 299] is classified Success if and only if the
status code is exactly 200; no other 2xx outcome is classified Success. -/
theorem C2_default_2xx_success_iff (s : Nat) (h1 : 200 ≤ s) (h2 : s ≤ 299) :
    (classify_chat_simple s = Verdict.success ↔ s = 200) ∧
    (classify_chat_conversation s = Verdict.success ↔ s = 200) ∧
    (classify_test_tool_endpoint s = Verdict.success ↔ s = 200) ∧
    (classify_chat_heavy s = Verdict.success ↔ s = 200) ∧
    (classify_chat_endpoint s = Verdict.success ↔ s = 200) := by
  have h429 : ¬s = 429 := by omega
  refine ⟨?_, ?_, ?_, ?_, ?_⟩ <;>
  · constructor
    · intro hcl
      by_contra hne
      simp [classify_chat_simple, classify_chat_conversation,
        classify_test_tool_endpoint, classify_chat_heavy,
        classify_chat_endpoint, hne, h429] at hcl
    · intro he
      subst he
      rfl

/-- C2 witness: the amended statement evaluated at status 204. -/
theorem C2_default_2xx_success_iff_witness :
    (classify_chat_simple 204 = Verdict.success ↔ 204 = 200) ∧
    (classify_chat_conversation 204 = Verdict.success ↔ 204 = 200) ∧
    (classify_test_tool_endpoint 204 = Verdict.success ↔ 204 = 200) ∧
    (classify_chat_heavy 204 = Verdict.success ↔ 204 = 200) ∧
    (classify_chat_endpoint 204 = Verdict.success ↔ 204 = 200) :=
  C2_default_2xx_success_iff 204 (by decide) (by decide)

/-- C3: when the tag filter leaves no eligible task (no task has an empty
tag set or a tag in the filter), `select` fails with `NoEligibleTask` and
never returns a task; when it does return a task, that task is eligible
under the filter. -/
theorem C3_select_filter (tasks : List TaskDesc)
    (filter : Option (List String)) (draw : Nat) :
    ((tasks.filter (eligible filter)).isEmpty = true →
      select tasks filter draw = .error .NoEligibleTask ∧
      ∀ t, ¬select tasks filter draw = .ok t) ∧
    (∀ t, select tasks filter draw = .ok t → eligible filter t = true) := by
  constructor
  · intro he
    refine ⟨by simp [select, he], ?_⟩
    intro t h
    simp [select, he] at h
  · intro t h
    by_cases he : (tasks.filter (eligible filter)).isEmpty
    · simp [select, he] at h
    · simp only [select, Bool.not_eq_true] at h
      rw [if_neg (by simp [he])] at h
      match hc : cumSelect (tasks.filter (eligible filter)) draw with
      | none => rw [hc] at h; cases h
      | some t0 =>
        rw [hc] at h
        have hmem := cumSelect_mem hc
        have ht : t0 = t := Except.ok.inj h
        subst ht
        exact (List.mem_filter.mp hmem).2

/-- C3 witness: the full `ChatGPTPhilippinesUser` task set under the filter
["nonexistent"] (which no task's tag set meets) fails with
`NoEligibleTask`; under the filter ["chat"] the returned task carries the
"chat" tag. -/
theorem C3_select_filter_witness :
    select chatGPTPhilippinesTasks (some ["nonexistent"]) 0 =
      .error .NoEligibleTask ∧
    eligible (some ["chat"]) ⟨"chat_endpoint", 5, ["chat"]⟩ = true :=
  ⟨((C3_select_filter chatGPTPhilippinesTasks (some ["nonexistent"]) 0).1
      (by decide)).1,
   (C3_select_filter chatGPTPhilippinesTasks (some ["chat"]) 0).2
      ⟨"chat_endpoint", 5, ["chat"]⟩ (by rfl)⟩

/-- C4: the sum of StatEntry counts across all categories held by the
aggregator equals the number of RequestOutcomes recorded so far: no
outcome is dropped and none is counted twice. -/
theorem C4_totalCount_replay (outcomes : List OutcomeRec) :
    totalCount (replay outcomes) = outcomes.length := by
  unfold replay
  rw [totalCount_foldl]
  simp [emptyAggregator, totalCount]

/-- Helper: replaying any outcome sequence yields a total count equal to
its length. -/
theorem totalCount_replay_eq (l : List OutcomeRec) :
    totalCount (replay l) = l.length := by
  unfold replay
  rw [totalCount_foldl]
  simp [emptyAggregator, totalCount]

/-- C5: when K independent writers each record N outcomes and the
serialized aggregation point admits them in an arbitrary interleaving
(any schedule that consumes every writer's records), the aggregator's
total count is exactly K×N. -/
theorem C5_concurrent_record_total (K N : Nat)
    (writers : List (List OutcomeRec)) (sched : List Nat)
    (out : List OutcomeRec)
    (hK : writers.length = K) (hN : ∀ w ∈ writers, w.length = N)
    (hm : mergeSched sched writers = some out) :
    totalCount (replay out) = K * N := by
  rw [totalCount_replay_eq, mergeSched_length hm, sum_lengths_const hN, hK]

/-- C5 witness: two writers with two records each, interleaved by the
schedule [1, 0, 0, 1], yield total count 2 × 2. -/
theorem C5_concurrent_record_total_witness :
    totalCount (replay
      [("/api/health", Verdict.success),
       ("/api/chat [simple]", Verdict.success),
       ("/api/chat [simple]", Verdict.failure "Rate limited"),
       ("/api/health", Verdict.success)]) = 2 * 2 :=
  C5_concurrent_record_total 2 2
    [[("/api/chat [simple]", Verdict.success),
      ("/api/chat [simple]", Verdict.failure "Rate limited")],
     [("/api/health", Verdict.success),
      ("/api/health", Verdict.success)]]
    [1, 0, 0, 1]
    [("/api/health", Verdict.success),
     ("/api/chat [simple]", Verdict.success),
     ("/api/chat [simple]", Verdict.failure "Rate limited"),
     ("/api/health", Verdict.success)]
    rfl (by decide) (by rfl)

/-- C7: weighted selection is a pure function of the task set, the tag
filter and the uniform draw: two invocations with equal inputs and an
in-range draw both succeed and return the same task. -/
theorem C7_select_deterministic (t1 t2 : List TaskDesc)
    (f1 f2 : Option (List String)) (d1 d2 : Nat)
    (ht : t1 = t2) (hf : f1 = f2) (hd : d1 = d2)
    (hlt : d1 < totalWeight (t1.filter (eligible f1))) :
    ∃ task, select t1 f1 d1 = .ok task ∧ select t2 f2 d2 = .ok task := by
  subst ht
  subst hf
  subst hd
  have hne : (t1.filter (eligible f1)).isEmpty = false := by
    cases hE : t1.filter (eligible f1) with
    | nil => rw [hE] at hlt; simp [totalWeight] at hlt
    | cons a as => simp
  obtain ⟨t0, hc⟩ := cumSelect_isSome hlt
  exact ⟨t0, by simp [select, hne, hc], by simp [select, hne, hc]⟩

/-- C7 witness: on the `ChatUser` task set (weights 10, 5, 3, 1, 1, total
20) with no filter and draw 12, both invocations return the same task. -/
theorem C7_select_deterministic_witness :
    ∃ task, select chatUserTasks none 12 = .ok task ∧
      select chatUserTasks none 12 = .ok task :=
  C7_select_deterministic chatUserTasks chatUserTasks none none 12 12
    rfl rfl rfl (by decide)

/-- C6: starting and then immediately stopping a run (zero-duration run)
succeeds without error — for any valid profile list and regardless of the
state any previous run left behind — and the final snapshot has count 0
for every category. -/
theorem C6_start_stop_zero (profiles : List Profile)
    (prev : OrchestratorState)
    (hne : profiles ≠ []) (hv : ∀ p ∈ profiles, validProfile p = true) :
    ∃ st, Orchestrator.start profiles prev = .ok st ∧
      (Orchestrator.stop st).1.phase = .stopped ∧
      (∀ c e, (c, e) ∈ (Orchestrator.stop st).2 → e.count = 0) ∧
      totalCount (Orchestrator.stop st).2 = 0 := by
  have h1 : profiles.isEmpty = false := by
    cases profiles with
    | nil => exact absurd rfl hne
    | cons p ps => rfl
  have hcond : (!profiles.isEmpty && profiles.all validProfile) = true := by
    rw [h1]
    simpa [List.all_eq_true] using hv
  refine ⟨⟨Phase.running, emptyAggregator⟩, ?_, rfl, ?_, rfl⟩
  · unfold Orchestrator.start
    rw [if_pos hcond]
  · intro c e hm
    simp [Orchestrator.stop, emptyAggregator] at hm

/-- C6 witness: one valid profile (the `ChatUser` task set with wait range
(1, 5)), a previous run that left a dirty aggregator, zero outcomes in
between — the snapshot is empty of any nonzero count. -/
theorem C6_start_stop_zero_witness :
    ∃ st, Orchestrator.start [Profile.mk chatUserTasks 1 5]
        (OrchestratorState.mk Phase.stopped [("Homepage", StatEntry.mk 7 2)]) =
        .ok st ∧
      (Orchestrator.stop st).1.phase = .stopped ∧
      (∀ c e, (c, e) ∈ (Orchestrator.stop st).2 → e.count = 0) ∧
      totalCount (Orchestrator.stop st).2 = 0 :=
  C6_start_stop_zero [Profile.mk chatUserTasks 1 5]
    (OrchestratorState.mk Phase.stopped [("Homepage", StatEntry.mk 7 2)])
    (List.cons_ne_nil _ _) (by decide)

/-- C8: the wait time `between mn mx u` produced from a unit draw
`u ∈ [0,1]` lies in the configured range — (1,5) for ChatUser, (2,8) for
HeavyUser, (0.1,1) for BurstUser — and is uniformly distributed over it:
the draws landing in a subinterval [a,b] are exactly the unit interval
[(a−mn)/(mx−mn), (b−mn)/(mx−mn)], whose length is (b−a)/(mx−mn),
proportional to the subinterval's length. -/
theorem C8_wait_time_uniform (mn mx u a b : ℚ)
    (hr : (mn, mx) = ChatUser_wait_range ∨ (mn, mx) = HeavyUser_wait_range ∨
      (mn, mx) = BurstUser_wait_range)
    (hu0 : 0 ≤ u) (hu1 : u ≤ 1)
    (ha : mn ≤ a) (_hab : a ≤ b) (hb : b ≤ mx) :
    (mn ≤ between mn mx u ∧ between mn mx u ≤ mx) ∧
    ((a ≤ between mn mx u ∧ between mn mx u ≤ b) ↔
      ((a - mn) / (mx - mn) ≤ u ∧ u ≤ (b - mn) / (mx - mn))) ∧
    (b - mn) / (mx - mn) - (a - mn) / (mx - mn) = (b - a) / (mx - mn) := by
  have hlt : mn < mx := by
    rcases hr with h | h | h <;>
      simp only [ChatUser_wait_range, HeavyUser_wait_range,
        BurstUser_wait_range, Prod.mk.injEq] at h <;>
      obtain ⟨hmn, hmx⟩ := h <;> subst hmn <;> subst hmx <;> norm_num
  have hpos : (0 : ℚ) < mx - mn := by linarith
  refine ⟨⟨?_, ?_⟩, ?_, ?_⟩
  · have := mul_nonneg hu0 (le_of_lt hpos)
    unfold between
    linarith
  · have := mul_le_mul_of_nonneg_right hu1 (le_of_lt hpos)
    unfold between
    linarith
  · unfold between
    rw [div_le_iff₀ hpos, le_div_iff₀ hpos]
    constructor
    · rintro ⟨hx, hy⟩
      exact ⟨by linarith, by linarith⟩
    · rintro ⟨hx, hy⟩
      exact ⟨by linarith, by linarith⟩
  · rw [div_sub_div_same]
    congr 1
    ring

/-- C8 witness: ChatUser's range (1,5) with unit draw 1/2 and subinterval
[2,3]. -/
theorem C8_wait_time_uniform_witness :
    ((1 : ℚ) ≤ between 1 5 (1/2) ∧ between 1 5 (1/2) ≤ 5) ∧
    (((2 : ℚ) ≤ between 1 5 (1/2) ∧ between 1 5 (1/2) ≤ 3) ↔
      (((2 : ℚ) - 1) / (5 - 1) ≤ 1/2 ∧ (1/2 : ℚ) ≤ (3 - 1) / (5 - 1))) ∧
    ((3 : ℚ) - 1) / (5 - 1) - ((2 : ℚ) - 1) / (5 - 1) =
      ((3 : ℚ) - 2) / (5 - 1) :=
  C8_wait_time_uniform 1 5 (1/2) 2 3 (Or.inl rfl)
    (by norm_num) (by norm_num) (by norm_num) (by norm_num) (by norm_num)

/-- C9: the executor issues each request with the timeout the task
declares when there is one, not the engine default: the heavy chat task
runs with a per-call timeout of 60 seconds while every other task uses
the engine default. -/
theorem C9_per_call_timeout (engineDefault : Nat) (endpoint : String) :
    effectiveTimeout chat_heavy_request engineDefault = 60 ∧
    effectiveTimeout chat_simple_request engineDefault = engineDefault ∧
    effectiveTimeout chat_conversation_request engineDefault = engineDefault ∧
    effectiveTimeout (test_tool_endpoint_request endpoint) engineDefault =
      engineDefault ∧
    effectiveTimeout check_health_request engineDefault = engineDefault ∧
    effectiveTimeout view_homepage_request engineDefault = engineDefault ∧
    effectiveTimeout rapid_requests_request engineDefault = engineDefault :=
  ⟨rfl, rfl, rfl, rfl, rfl, rfl, rfl⟩

/-- C10: the transcript is empty after `on_start`; the first
`chat_conversation` invocation leaves exactly one user message followed by
one assistant message; any invocation on a transcript that already holds
at least 2 messages leaves it unchanged and sends a payload one message
longer than the transcript, so every payload after warm-up has exactly
3 messages. -/
theorem C10_transcript_invariant (p q : String) (msgs : List Message)
    (h : 2 ≤ msgs.length) :
    on_start_messages = ([] : List Message) ∧
    chat_conversation_update p on_start_messages =
      [⟨"user", p⟩, ⟨"assistant", "This is a test response."⟩] ∧
    chat_conversation_update q msgs = msgs ∧
    (chat_conversation_payload q msgs).length = msgs.length + 1 ∧
    (chat_conversation_payload q
      (chat_conversation_update p on_start_messages)).length = 3 := by
  have hupd : chat_conversation_update q msgs = msgs := by
    unfold chat_conversation_update
    rw [if_neg (by omega)]
  refine ⟨rfl, rfl, hupd, ?_, rfl⟩
  unfold chat_conversation_payload
  rw [hupd]
  simp

/-- C10 witness: the warmed-up transcript built from prompt "a", then a
later invocation with prompt "b". -/
theorem C10_transcript_invariant_witness :
    on_start_messages = ([] : List Message) ∧
    chat_conversation_update "a" on_start_messages =
      [⟨"user", "a"⟩, ⟨"assistant", "This is a test response."⟩] ∧
    chat_conversation_update "b"
      [⟨"user", "a"⟩, ⟨"assistant", "This is a test response."⟩] =
      [⟨"user", "a"⟩, ⟨"assistant", "This is a test response."⟩] ∧
    (chat_conversation_payload "b"
      [⟨"user", "a"⟩, ⟨"assistant", "This is a test response."⟩]).length =
      ([⟨"user", "a"⟩, ⟨"assistant", "This is a test response."⟩] :
        List Message).length + 1 ∧
    (chat_conversation_payload "b"
      (chat_conversation_update "a" on_start_messages)).length = 3 :=
  C10_transcript_invariant "a" "b"
    [⟨"user", "a"⟩, ⟨"assistant", "This is a test response."⟩] (by decide)

end LoadTest
